import Mathlib

/-!
# Verification of `torn_open/api_spec_plugin.py`

A shallow embedding of the OpenAPI spec-generation module of the `tornopen`
repository, together with theorems settling the frozen claims about it.

Modelling conventions:

* Python runtime values that appear in the emitted OpenAPI structures are
  modelled by the inductive `PyVal` (None, bools, ints, strings, enum member
  objects, lists, dicts).  Dicts are modelled as insertion-ordered association
  lists, as Python dicts preserve insertion order.  Python `==` on these values
  is modelled by the structural `PyVal.beq`; for dicts this compares entries in
  insertion order, which agrees with Python's (order-insensitive) dict equality
  on all dicts produced by this module, since they are built in a fixed
  construction order.
* Python type annotations are modelled by the inductive `PyType`.
* Fallible Python code (code that can raise `AttributeError`, `KeyError`,
  `TypeError`, ...) is modelled in the `Except String` monad; the error string
  names the Python exception.
* `inspect.Parameter` is modelled by `PyParameter`; `inspect._empty` defaults
  are modelled by `Option.none`.
-/

/-- A Python runtime value, as far as this module can observe it.
`vEnumMember cls value` models an enum member object: `cls` is the member list
of its enum class (`type(member)`), `value` its underlying `.value`. -/
inductive PyVal where
  | vNone
  | vBool (b : Bool)
  | vInt (n : Int)
  | vStr (s : String)
  | vEnumMember (cls : List (String × PyVal)) (value : PyVal)
  | vList (xs : List PyVal)
  | vDict (kvs : List (String × PyVal))
deriving Repr

/-- Python truthiness (`bool(v)`) of a modelled value.  Enum member objects are
always truthy (plain `Enum` does not define `__bool__`). -/
def truthy : PyVal → Bool
  | .vNone => false
  | .vBool b => b
  | .vInt n => n != 0
  | .vStr s => s != ""
  | .vEnumMember _ _ => true
  | .vList xs => !xs.isEmpty
  | .vDict kvs => !kvs.isEmpty

mutual

/-- Python structural equality `==` on modelled values (see the header note on
dict ordering). -/
def PyVal.beq : PyVal → PyVal → Bool
  | .vNone, .vNone => true
  | .vBool a, .vBool b => a == b
  | .vInt a, .vInt b => a == b
  | .vStr a, .vStr b => a == b
  | .vEnumMember c1 u1, .vEnumMember c2 u2 => PyVal.beqPairs c1 c2 && PyVal.beq u1 u2
  | .vList a, .vList b => PyVal.beqList a b
  | .vDict a, .vDict b => PyVal.beqPairs a b
  | _, _ => false

/-- Elementwise equality of Python lists. -/
def PyVal.beqList : List PyVal → List PyVal → Bool
  | [], [] => true
  | a :: as, b :: bs => PyVal.beq a b && PyVal.beqList as bs
  | _, _ => false

/-- Entrywise equality of Python dict entry lists. -/
def PyVal.beqPairs : List (String × PyVal) → List (String × PyVal) → Bool
  | [], [] => true
  | (k1, v1) :: as, (k2, v2) :: bs => k1 == k2 && PyVal.beq v1 v2 && PyVal.beqPairs as bs
  | _, _ => false

end

mutual

theorem PyVal.beq_refl (v : PyVal) : PyVal.beq v v = true := by
  match v with
  | .vNone => rfl
  | .vBool b => simp [PyVal.beq]
  | .vInt n => simp [PyVal.beq]
  | .vStr s => simp [PyVal.beq]
  | .vEnumMember c u => simp [PyVal.beq, PyVal.beqPairs_refl c, PyVal.beq_refl u]
  | .vList xs => simp [PyVal.beq, PyVal.beqList_refl xs]
  | .vDict xs => simp [PyVal.beq, PyVal.beqPairs_refl xs]

theorem PyVal.beqList_refl (xs : List PyVal) : PyVal.beqList xs xs = true := by
  match xs with
  | [] => rfl
  | a :: as => simp [PyVal.beqList, PyVal.beq_refl a, PyVal.beqList_refl as]

theorem PyVal.beqPairs_refl (xs : List (String × PyVal)) : PyVal.beqPairs xs xs = true := by
  match xs with
  | [] => rfl
  | (k, v) :: as => simp [PyVal.beqPairs, PyVal.beq_refl v, PyVal.beqPairs_refl as]

end

/-- `d.get(k)` on an insertion-ordered Python dict: `None`-free lookup. -/
def dictGet {α : Type} : List (String × α) → String → Option α
  | [], _ => none
  | (k0, v0) :: rest, k => if k0 = k then some v0 else dictGet rest k

/-- `d[k]` on a Python dict: raises `KeyError` when the key is absent. -/
def dictGetE {α : Type} (d : List (String × α)) (k : String) : Except String α :=
  match dictGet d k with
  | some v => .ok v
  | none => .error "KeyError"

/-- `d[k] = v` on an insertion-ordered Python dict: overwriting an existing key
keeps its position, a new key is appended. -/
def dictSet {α : Type} : List (String × α) → String → α → List (String × α)
  | [], k, v => [(k, v)]
  | (k0, v0) :: rest, k, v =>
      if k0 = k then (k0, v) :: rest else (k0, v0) :: dictSet rest k v

/-- Removal of a key (`d.pop(k, ...)`'s effect on the dict). -/
def dictRemove {α : Type} (d : List (String × α)) (k : String) : List (String × α) :=
  d.filter (fun kv => kv.1 != k)

/-- A Python type annotation, as far as `_get_type` can observe it.

* `pyStr`/`pyInt`/`pyFloat`/`pyBool`/`pyList`/`pyDict`/`noneType` are the
  builtin classes `str`, `int`, `float`, `bool`, `list`, `dict`, `NoneType`.
* `typingList` is the bare (unsubscripted) `typing.List`.
* `enum members` is an `EnumMeta` instance (an enum class) with its ordered
  `__members__` list of (member name, underlying value).
* `modelClass name rendered` is a schema-capable model class (e.g. a pydantic
  model); `rendered` is the JSON schema its external `.schema(...)` renderer
  returns (see `RequestBodySchema`).
* `otherClass name` is any other class (`isinstance(annotation, type)` holds,
  no `__args__`).
* `union args` is a `typing.Union[...]` alias (not a class, has `__args__`).
* `generic origin args` is a subscripted generic alias such as `List[str]`
  (not a class, has `__origin__` and `__args__`).
* `special name` is any other non-class object without `__args__` (e.g. a
  string forward-reference annotation): accessing `.__args__` on it raises
  `AttributeError`. -/
inductive PyType where
  | pyStr
  | pyInt
  | pyFloat
  | pyBool
  | pyList
  | pyDict
  | typingList
  | noneType
  | enum (members : List (String × PyVal))
  | modelClass (name : String) (rendered : List (String × PyVal))
  | otherClass (name : String)
  | union (args : List PyType)
  | generic (origin : PyType) (args : List PyType)
  | special (name : String)
deriving Repr

/-- `type(v)` of a modelled value: the builtin class of the value; for an enum
member object it is the member's enum class. -/
def pyTypeOf : PyVal → PyType
  | .vNone => .noneType
  | .vBool _ => .pyBool
  | .vInt _ => .pyInt
  | .vStr _ => .pyStr
  | .vEnumMember cls _ => .enum cls
  | .vList _ => .pyList
  | .vDict _ => .pyDict

/-- Whether the annotation is the builtin class `NoneType`. -/
def is_noneType : PyType → Bool
  | .noneType => true
  | _ => false

/-- Modelled from the spec: `torn_open.types.is_optional` (the module
`torn_open/types.py` is not under `src/`).  Per the spec, `Optional[T]` is a
`Union[..., None]`: a parameterized `Union` alias one of whose arguments is
`NoneType`.  Objects that are not parameterized `Union` aliases (classes,
other generics, tuples, ...) are not Optional. -/
def is_optional : PyType → Bool
  | .union args => args.any is_noneType
  | _ => false

/-- Modelled from the spec: `torn_open.types.is_list` (the module
`torn_open/types.py` is not under `src/`).  Per the spec, a "generic
list/array type" is a subscripted generic alias whose `__origin__` is the
builtin `list`. -/
def is_list : PyType → Bool
  | .generic .pyList _ => true
  | _ => false

/-- Whether `annotation in types_mapping` holds for the literal mapping
`{str, int, float, list, List}` in `_get_type`. -/
def in_types_mapping : PyType → Bool
  | .pyStr => true
  | .pyInt => true
  | .pyFloat => true
  | .pyList => true
  | .typingList => true
  | _ => false

/-- `isinstance(annotation, EnumMeta)`. -/
def isEnumMeta : PyType → Bool
  | .enum _ => true
  | _ => false

/-- `annotation.__args__` — raises `AttributeError` unless the annotation is a
parameterized alias (`union`/`generic`). -/
def pyArgs : PyType → Except String (List PyType)
  | .union args => .ok args
  | .generic _ args => .ok args
  | _ => .error "AttributeError: object has no attribute __args__"

/-- `_unpack_enum(enum_meta)`: the members' underlying values, in declaration
order. -/
def _unpack_enum (members : List (String × PyVal)) : List PyVal :=
  members.map Prod.snd

/-- `_get_type_of_enum_value(enum_meta)`: the type of the first member's
underlying value; `None` (here: `Option.none`) for an empty enum. -/
def _get_type_of_enum_value (members : List (String × PyVal)) : Option PyType :=
  (_unpack_enum members).head?.map pyTypeOf

theorem sizeOf_pyTypeOf_lt (n0 : String) (v0 : PyVal) (rest : List (String × PyVal)) :
    sizeOf (pyTypeOf v0) < sizeOf (PyType.enum ((n0, v0) :: rest)) := by
  cases v0 <;> (simp [pyTypeOf]; try omega)

/-- `_get_type(annotation)` (lines 109–132 of the source): the OpenAPI type
string for an annotation, `Option.none` when no type is emitted, `.error` when
the Python code raises.  The source's chain of guards is compiled into one
match; the cases are, in the source's order:
1. the `types_mapping` lookup (`str`, `int`, `float`, `list`, `typing.List`);
2. `is_optional(annotation)` → recurse on `annotation.__args__[0]`;
3. `isinstance(annotation, EnumMeta)` → recurse on the type of the first
   member's value; an empty enum passes `None` to the recursive call, which
   then evaluates `None.__args__` and raises `AttributeError`;
4. `is_list(annotation)` → recurse on `annotation.__origin__` (= `list`);
5. the final guard `not isinstance(annotation, type) and
   is_optional(annotation.__args__)`: a tuple is never Optional, so this
   branch only forces the `__args__` access — classes fall through to the
   implicit `return None`, parameterized aliases evaluate the guard to `False`
   and also return `None`, and non-class objects without `__args__` raise
   `AttributeError`. -/
def _get_type : PyType → Except String (Option String)
  | .pyStr => .ok (some "string")
  | .pyInt => .ok (some "integer")
  | .pyFloat => .ok (some "number")
  | .pyList => .ok (some "array")
  | .typingList => .ok (some "array")
  | .union args =>
      if args.any is_noneType then
        match args with
        | a0 :: _ => _get_type a0
        | [] => .ok none
      else .ok none
  | .enum members =>
      match h : _get_type_of_enum_value members with
      | some t => _get_type t
      | none => .error "AttributeError: NoneType object has no attribute __args__"
  | .generic .pyList _ => _get_type .pyList
  | .generic _ _ => .ok none
  | .special _ => .error "AttributeError: object has no attribute __args__"
  | .pyBool => .ok none
  | .pyDict => .ok none
  | .noneType => .ok none
  | .modelClass _ _ => .ok none
  | .otherClass _ => .ok none
termination_by a => sizeOf a
decreasing_by
  · simp_wf
    omega
  · cases members with
    | nil => simp [_get_type_of_enum_value, _unpack_enum] at h
    | cons hd tl =>
        obtain ⟨n0, v0⟩ := hd
        simp only [_get_type_of_enum_value, _unpack_enum, List.map_cons, List.head?_cons,
          Option.map_some'] at h
        cases h
        exact sizeOf_pyTypeOf_lt n0 v0 tl
  · simp_wf
    omega

/-- `inspect.Parameter`, as far as this module reads it: a name, a type
annotation (field `ann`, modelling `parameter.annotation`), and a declared
default (`Option.none` models `inspect._empty`, i.e. no declared default). -/
structure PyParameter where
  name : String
  ann : PyType
  default : Option PyVal
deriving Repr

/-- `_get_default_value_of_parameter(parameter)`:
`default = parameter.default if parameter.default is not inspect._empty else None`,
then `default.value if default and isinstance(annotation, EnumMeta) else default`.
Accessing `.value` on a truthy non-member default under an enum annotation
raises `AttributeError`. -/
def _get_default_value_of_parameter (p : PyParameter) : Except String PyVal :=
  let default := p.default.getD .vNone
  if truthy default && isEnumMeta p.ann then
    match default with
    | .vEnumMember _ v => .ok v
    | _ => .error "AttributeError: object has no attribute value"
  else .ok default

/-- `_get_item_type(annotation)`: the element type of an array annotation.
`len(annotation.__args__) == 1` → type of the single argument;
`is_optional(annotation)` → type of `annotation.__args__[0].__args__[0]`;
otherwise `None`.  The `__args__` accesses raise `AttributeError` on
annotations without `__args__` (e.g. the bare builtin `list`). -/
def _get_item_type (ann : PyType) : Except String (Option String) := do
  let args ← pyArgs ann
  match args with
  | [a0] => _get_type a0
  | _ =>
    if is_optional ann then
      match args with
      | a0 :: _ => do
          let innerArgs ← pyArgs a0
          match innerArgs with
          | b0 :: _ => _get_type b0
          | [] => .error "IndexError: tuple index out of range"
      | [] => .error "IndexError: tuple index out of range"
    else
      .ok none

/-- The value stored under a dict key for an `Optional[str]`-valued Python
expression (`None` or a string). -/
def pyOptStr : Option String → PyVal
  | some s => .vStr s
  | none => .vNone

/-- `Items(annotation)`: `None` unless `_get_type(annotation) == "array"`,
otherwise the dict `{"type": item_type}` (whose value may be `None`). -/
def Items (ann : PyType) : Except String PyVal := do
  let t ← _get_type ann
  if t ≠ some "array" then
    .ok .vNone
  else do
    let item_type ← _get_item_type ann
    .ok (.vDict [("type", pyOptStr item_type)])

/-- `_clear_none_from_dict(dictionary)`: keep only the entries with truthy
values (`{k: v for k, v in dictionary.items() if v}`). -/
def _clear_none_from_dict (kvs : List (String × PyVal)) : List (String × PyVal) :=
  kvs.filter (fun kv => truthy kv.2)

/-- `Schema(parameter)`: the parameter's schema dict
`{"type": ..., "enum": ..., "default": ..., "items": ...}` with falsy values
cleared. -/
def Schema (parameter : PyParameter) : Except String (List (String × PyVal)) := do
  let _type ← _get_type parameter.ann
  let _enum : PyVal :=
    match parameter.ann with
    | .enum members => .vList (_unpack_enum members)
    | _ => .vNone
  let default ← _get_default_value_of_parameter parameter
  let items ← Items parameter.ann
  let schema := [("type", pyOptStr _type), ("enum", _enum), ("default", default),
    ("items", items)]
  .ok (_clear_none_from_dict schema)

/-- `Parameter(parameter, param_type, required=None)` (the source's `Parameter`
function; `PyParameter` above is `inspect.Parameter`).  The dict is NOT passed
through `_clear_none_from_dict`: all four keys are always present. -/
def Parameter (parameter : PyParameter) (param_type : String) (required : Option Bool) :
    Except String (List (String × PyVal)) := do
  let schema ← Schema parameter
  .ok [("name", .vStr parameter.name),
       ("in", .vStr param_type),
       ("required", .vBool (required.getD (!is_optional parameter.ann))),
       ("schema", .vDict schema)]

/-- `PathParameter(parameter)`. -/
def PathParameter (parameter : PyParameter) : Except String (List (String × PyVal)) :=
  Parameter parameter "path" (some true)

/-- `QueryParameter(parameter)`. -/
def QueryParameter (parameter : PyParameter) : Except String (List (String × PyVal)) :=
  Parameter parameter "query" none

/-- The character set of Python's default `str.strip()` (ASCII whitespace). -/
def isPySpace (c : Char) : Bool :=
  c == ' ' || c == '\t' || c == '\n' || c == '\x0d' || c == '\x0b' || c == '\x0c'

/-- Python `s.strip()`: drop leading and trailing whitespace. -/
def pyStrip (s : String) : String :=
  String.mk (((s.toList.dropWhile isPySpace).reverse.dropWhile isPySpace).reverse)

/-- `right_strip_path(path)`: Python `path.rstrip("/*")` — drop trailing
characters belonging to the set `{'/', '*'}`. -/
def right_strip_path (path : String) : String :=
  String.mk ((path.toList.reverse.dropWhile (fun c => c == '/' || c == '*')).reverse)

/-- Python `%`-formatting of a string against a tuple of string arguments
(`path % path_params`), on character lists: `%s` consumes the next argument,
`%%` is a literal `%`, any other `%`-sequence raises `ValueError`; leftover or
missing arguments raise `TypeError`. -/
def percentFormatChars : List Char → List String → Except String (List Char)
  | [], [] => .ok []
  | [], _ :: _ => .error "TypeError: not all arguments converted during string formatting"
  | ['%'], _ => .error "ValueError: incomplete format"
  | '%' :: 's' :: rest, a :: args => do
      let r ← percentFormatChars rest args
      .ok (a.toList ++ r)
  | '%' :: 's' :: _, [] => .error "TypeError: not enough arguments for format string"
  | '%' :: '%' :: rest, args => do
      let r ← percentFormatChars rest args
      .ok ('%' :: r)
  | '%' :: _ :: _, _ => .error "ValueError: unsupported format character"
  | c :: rest, args => do
      let r ← percentFormatChars rest args
      .ok (c :: r)

/-- Python `s % args` for a string `s` and a tuple of strings `args`. -/
def percentFormat (s : String) (args : List String) : Except String String :=
  (percentFormatChars s.toList args).map String.mk

/-- One step of Python's stable sort: insert `x` into an index-sorted list,
before the first strictly larger index (so that elements with equal indices
keep their original relative order). -/
def insortByIndex (x : String × Nat) : List (String × Nat) → List (String × Nat)
  | [] => [x]
  | y :: ys => if x.2 ≤ y.2 then x :: y :: ys else y :: insortByIndex x ys

/-- Python's stable `sorted(items, key=lambda item: item[1])` on the
`(group name, capture index)` entries of `regex.groupindex`. -/
def pySortedByGroupIndex : List (String × Nat) → List (String × Nat)
  | [] => []
  | x :: xs => insortByIndex x (pySortedByGroupIndex xs)

/-- One HTTP-verb method attribute of a handler class, as introspected.
`is_unimplemented` models the identity test
`getattr(handler, verb) is handler._unimplemented_method` (the tornado
`RequestHandler` default stub); `doc` is `__doc__`; `openapi_tags` and
`openapi_summary` are the `_openapi_tags`/`_openapi_summary` attributes
attached by the `tags`/`summary` decorators (absent if never decorated). -/
structure HandlerMethod where
  is_unimplemented : Bool
  doc : Option String
  openapi_tags : Option (List String)
  openapi_summary : Option String
deriving Repr

/-- A declared response-model class.  `doc` is its `__doc__`; `rendered` is
the JSON schema dict returned by its external (pydantic) renderer
`response_model.schema(ref_template=SCHEMA_REF_TEMPLATE)`, which this
embedding treats as an opaque collaborator. -/
structure ResponseModel where
  doc : Option String
  rendered : List (String × PyVal)
deriving Repr

/-- A `torn_open` handler class (`url_spec.handler_class`), as far as this
module reads it: `SUPPORTED_METHODS`, the per-verb method attributes
(`getattr(handler, verb)`), and the `path_params` / `query_params` /
`json_param` / `response_models` tables built by the surrounding framework. -/
structure Handler where
  SUPPORTED_METHODS : List String
  methods : List (String × HandlerMethod)
  path_params : List (String × PyParameter)
  query_params : List (String × List (String × PyParameter))
  json_param : List (String × Option (String × PyParameter))
  response_models : List (String × Option ResponseModel)
deriving Repr

/-- A routing-table entry (`tornado.web.URLSpec`), as far as this module reads
it: `matcher_path` is `url_spec.matcher._path` (the pattern with each capture
group replaced by a positional `%s` slot), `groupindex` is
`url_spec.regex.groupindex` (named group → capture index), `groups` is
`url_spec.regex.groups` (the total number of capture groups), and
`handler_class` the handler type. -/
structure URLSpec where
  matcher_path : String
  groupindex : List (String × Nat)
  groups : Nat
  handler_class : Handler
deriving Repr

/-- `extract_and_sort_path_path_params(url_spec)`: the named capture groups
sorted by capture index (Python's stable `sorted` by `item[1]`), each wrapped
as an OpenAPI `{name}` placeholder. -/
def extract_and_sort_path_path_params (url_spec : URLSpec) : List String :=
  let path_params := pySortedByGroupIndex url_spec.groupindex
  path_params.map (fun param => "\x7b" ++ param.1 ++ "\x7d")

/-- `replace_path_with_openapi_placeholders(url_spec)`: the raw path when the
pattern has no capture groups, otherwise `path % path_params`. -/
def replace_path_with_openapi_placeholders (url_spec : URLSpec) : Except String String :=
  if url_spec.groups = 0 then
    .ok url_spec.matcher_path
  else
    percentFormat url_spec.matcher_path (extract_and_sort_path_path_params url_spec)

/-- `get_path(url_spec)`: placeholder substitution followed by
`right_strip_path`. -/
def get_path (url_spec : URLSpec) : Except String String := do
  let path ← replace_path_with_openapi_placeholders url_spec
  .ok (right_strip_path path)

/-- `get_path_params(url_spec)`: a `PathParameter` dict for every declared
path parameter of the handler, in table order. -/
def get_path_params (url_spec : URLSpec) : Except String (List (List (String × PyVal))) :=
  (url_spec.handler_class.path_params.map Prod.snd).mapM PathParameter

/-- The state of the component registry: the `schemas` mapping of an
`apispec` `Components` object (identifier → stored schema), insertion
ordered. -/
abbrev SchemasMap := List (String × PyVal)

namespace Components

/-- Modelled from the spec: the external `apispec` base method
`Components.schema(component_id, component)` that `TornOpenComponents.schema`
delegates to via `super()`.  `apispec` is an out-of-scope collaborator here;
the spec describes the resulting registry policy as
"Otherwise: insert/overwrite. No versioning, no conflict error — last writer
wins", so the base registration is modelled as a plain insert/overwrite of the
`schemas` mapping. -/
def schema (schemas : SchemasMap) (component_id : String) (component : PyVal) : SchemasMap :=
  dictSet schemas component_id component

end Components

namespace TornOpenComponents

/-- `TornOpenComponents.schema(component_id, component)` (lines 14–19): if the
already-stored schema compares `==` to the new one the call is a no-op
(`self.schemas.get(component_id) == component`; an absent key yields `None`,
which is compared the same way), otherwise it delegates to the base
registration. -/
def schema (schemas : SchemasMap) (component_id : String) (component : PyVal) : SchemasMap :=
  let got := (dictGet schemas component_id).getD .vNone
  if PyVal.beq got component then
    schemas
  else
    Components.schema schemas component_id component

end TornOpenComponents

/-- `_is_implemented(method, handler)`:
`getattr(handler, method) is not handler._unimplemented_method`.  A missing
attribute raises `AttributeError` (`getattr` without a default). -/
def _is_implemented (method : String) (handler : Handler) : Except String Bool :=
  match dictGet handler.methods method with
  | none => .error "AttributeError: handler has no such attribute"
  | some hm => .ok (!hm.is_unimplemented)

/-- Python `s.lower()` (ASCII). -/
def pyLower (s : String) : String :=
  String.mk (s.toList.map Char.toLower)

/-- The filtering comprehension inside `_get_implemented_http_methods`:
keep, in order, the lowercased verbs for which `_is_implemented` holds. -/
def _filter_implemented (handler : Handler) : List String → Except String (List String)
  | [] => .ok []
  | m :: rest => do
      let b ← _is_implemented m handler
      let tail ← _filter_implemented handler rest
      .ok (if b then m :: tail else tail)

/-- `_get_implemented_http_methods(url_spec)`:
`[method.lower() for method in handler.SUPPORTED_METHODS if
_is_implemented(method.lower(), handler)]`. -/
def _get_implemented_http_methods (url_spec : URLSpec) : Except String (List String) :=
  _filter_implemented url_spec.handler_class (url_spec.handler_class.SUPPORTED_METHODS.map pyLower)

/-- `_get_tags(method, url_spec)`: `None` for the framework stub or a missing
attribute, otherwise the `_openapi_tags` attribute (default `None`). -/
def _get_tags (method : String) (url_spec : URLSpec) : PyVal :=
  match dictGet url_spec.handler_class.methods method with
  | none => .vNone
  | some hm =>
      if hm.is_unimplemented then .vNone
      else
        match hm.openapi_tags with
        | some ts => .vList (ts.map PyVal.vStr)
        | none => .vNone

/-- `_get_summary(method, url_spec)`: `None` for the framework stub or a
missing attribute, otherwise the `_openapi_summary` attribute (default
`None`). -/
def _get_summary (method : String) (url_spec : URLSpec) : PyVal :=
  match dictGet url_spec.handler_class.methods method with
  | none => .vNone
  | some hm =>
      if hm.is_unimplemented then .vNone
      else
        match hm.openapi_summary with
        | some s => .vStr s
        | none => .vNone

/-- `_get_operation_description(method, url_spec)`:
`getattr(handler, method).__doc__`, stripped when truthy (`description.strip()
if description else description`). -/
def _get_operation_description (method : String) (url_spec : URLSpec) : Except String PyVal :=
  match dictGet url_spec.handler_class.methods method with
  | none => .error "AttributeError: handler has no such attribute"
  | some hm =>
      match hm.doc with
      | some d => .ok (if d ≠ "" then .vStr (pyStrip d) else .vStr d)
      | none => .ok .vNone

/-- `_get_query_params(method, url_spec)`:
`[QueryParameter(p) for p in handler.query_params[method].values()]` as a
Python list value. -/
def _get_query_params (method : String) (url_spec : URLSpec) : Except String PyVal := do
  let table ← dictGetE url_spec.handler_class.query_params method
  let params ← (table.map Prod.snd).mapM QueryParameter
  .ok (.vList (params.map PyVal.vDict))

/-- `SCHEMA_REF_TEMPLATE`. -/
def SCHEMA_REF_TEMPLATE : String := "#/components/schemas/\x7bmodel\x7d"

/-- `RequestBodySchema(parameter)`:
`parameter.annotation.schema(ref_template=SCHEMA_REF_TEMPLATE)` — the external
schema renderer of the annotated model class; any other annotation has no
`.schema` attribute. -/
def RequestBodySchema (parameter : PyParameter) : Except String (List (String × PyVal)) :=
  match parameter.ann with
  | .modelClass _ rendered => .ok rendered
  | _ => .error "AttributeError: object has no attribute schema"

/-- `RequestBody(method, url_spec)`: `None` when no JSON-body parameter is
declared for the verb, otherwise
`{"content": {"application/json": {"schema": RequestBodySchema(parameter)}}}`. -/
def RequestBody (method : String) (url_spec : URLSpec) : Except String PyVal := do
  let json_param ← dictGetE url_spec.handler_class.json_param method
  match json_param with
  | none => .ok .vNone
  | some (_, parameter) => do
      let schema ← RequestBodySchema parameter
      .ok (.vDict [("content", .vDict [("application/json", .vDict [("schema", .vDict schema)])])])

/-- The source text of `TEMPLATE_RESPONSE_DESCRIPTION` (the triple-quoted
literal inside `get_success_response_description`, verbatim). -/
def TEMPLATE_RESPONSE_DESCRIPTION : String := "\n    Include a `torn_open.models.ResponseModel` annotation with documentation to overwrite this default description.\n\n    Example\n    ```python\n    from torn_open.web import AnnotatedHandler\n    from torn_open.models import ResponseModel\n\n    class MyResponseModel(ResponseModel):\n        \"\"\"\n        Successfully retrieved my response model\n        \"\"\"\n        spam: str\n        ham: int\n\n    class MyHandler(AnnotatedHandler):\n        async def get(self) -> MyResponseModel:\n            pass\n\n    ```\n    "

/-- `get_success_response_description(response_model)`: the stripped template
boilerplate, unless the response model exists and has a truthy (non-empty)
docstring, which is then returned stripped. -/
def get_success_response_description (response_model : Option ResponseModel) : String :=
  match response_model with
  | some rm =>
      match rm.doc with
      | some d => if d ≠ "" then pyStrip d else pyStrip TEMPLATE_RESPONSE_DESCRIPTION
      | none => pyStrip TEMPLATE_RESPONSE_DESCRIPTION
  | none => pyStrip TEMPLATE_RESPONSE_DESCRIPTION

/-- The `for` loop in `SuccessResponseModelSchema`: register every referenced
schema into the components registry, in dict order. -/
def registerReferencedSchemas (components : SchemasMap) :
    List (String × PyVal) → SchemasMap
  | [] => components
  | (rid, rschema) :: rest =>
      registerReferencedSchemas (TornOpenComponents.schema components rid rschema) rest

/-- `SuccessResponseModelSchema(response_model, components)`: render the
response model's schema (None if no model), pop its `definitions` sub-map and
register each entry into the components registry.  Returns the resulting
schema value together with the updated registry (the Python code mutates the
shared `components` object). -/
def SuccessResponseModelSchema (response_model : Option ResponseModel)
    (components : SchemasMap) : Except String (PyVal × SchemasMap) :=
  match response_model with
  | none => .ok (.vNone, components)
  | some rm =>
      let schema := rm.rendered
      if schema.isEmpty then .ok (.vDict schema, components)
      else
        let referenced_schemas := (dictGet schema "definitions").getD (.vDict [])
        let schema := dictRemove schema "definitions"
        if !truthy referenced_schemas then .ok (.vDict schema, components)
        else
          match referenced_schemas with
          | .vDict refs => .ok (.vDict schema, registerReferencedSchemas components refs)
          | _ => .error "AttributeError: object has no attribute items"

/-- `SuccessResponse(method, url_spec, components)`: the `"200"` response
object `{"description": ..., "content": {"application/json": {"schema":
...}}}` (not compacted), threading the registry through the schema
rendering. -/
def SuccessResponse (method : String) (url_spec : URLSpec) (components : SchemasMap) :
    Except String (List (String × PyVal) × SchemasMap) := do
  let response_model ← dictGetE url_spec.handler_class.response_models method
  let (schema, components2) ← SuccessResponseModelSchema response_model components
  .ok ([("description", .vStr (get_success_response_description response_model)),
        ("content", .vDict [("application/json", .vDict [("schema", schema)])])],
       components2)

/-- `Responses(method, url_spec, components)`:
`{"200": SuccessResponse(...)}`. -/
def Responses (method : String) (url_spec : URLSpec) (components : SchemasMap) :
    Except String (List (String × PyVal) × SchemasMap) := do
  let (sr, components2) ← SuccessResponse method url_spec components
  .ok ([("200", .vDict sr)], components2)

/-- `Operation(method, url_spec, components)`: the operation dict, passed
through `_clear_none_from_dict`, together with the updated registry. -/
def Operation (method : String) (url_spec : URLSpec) (components : SchemasMap) :
    Except String (List (String × PyVal) × SchemasMap) := do
  let tags := _get_tags method url_spec
  let summary := _get_summary method url_spec
  let parameters ← _get_query_params method url_spec
  let description ← _get_operation_description method url_spec
  let requestBody ← RequestBody method url_spec
  let (responses, components2) ← Responses method url_spec components
  let operation := [("tags", tags), ("summary", summary), ("parameters", parameters),
    ("description", description), ("requestBody", requestBody),
    ("responses", .vDict responses)]
  .ok (_clear_none_from_dict operation, components2)

/-- The dict comprehension inside `Operations`, threading the registry
left-to-right. -/
def _operations_loop (url_spec : URLSpec) :
    List String → List (String × PyVal) → SchemasMap →
    Except String (List (String × PyVal) × SchemasMap)
  | [], acc, components => .ok (acc, components)
  | m :: rest, acc, components => do
      let (op, components2) ← Operation m url_spec components
      _operations_loop url_spec rest (dictSet acc m (.vDict op)) components2

/-- `Operations(url_spec, components)`:
`{method: Operation(method, url_spec, components) for method in
implemented_methods}`. -/
def Operations (url_spec : URLSpec) (components : SchemasMap) :
    Except String (List (String × PyVal) × SchemasMap) := do
  let implemented_methods ← _get_implemented_http_methods url_spec
  _operations_loop url_spec implemented_methods [] components

theorem dictGet_dictSet_self {α : Type} (d : List (String × α)) (k : String) (v : α) :
    dictGet (dictSet d k v) k = some v := by
  induction d with
  | nil => simp [dictGet, dictSet]
  | cons kv rest ih =>
      obtain ⟨k0, v0⟩ := kv
      by_cases hk : k0 = k
      · simp [dictGet, dictSet, hk]
      · simp [dictGet, dictSet, hk, ih]

theorem dictGet_dictSet_ne {α : Type} (d : List (String × α)) (k k' : String) (v : α)
    (hne : k' ≠ k) : dictGet (dictSet d k v) k' = dictGet d k' := by
  induction d with
  | nil =>
      have h1 : ¬ k = k' := fun h => hne h.symm
      simp [dictGet, dictSet, h1]
  | cons kv rest ih =>
      obtain ⟨k0, v0⟩ := kv
      by_cases hk : k0 = k
      · subst hk
        have h1 : ¬ k0 = k' := fun h => hne h.symm
        simp [dictGet, dictSet, h1]
      · by_cases hk' : k0 = k'
        · simp [dictGet, dictSet, hk, hk', hne]
        · simp [dictGet, dictSet, hk, hk', ih]

theorem dictSet_keys_of_mem {α : Type} (d : List (String × α)) (k : String) (v v' : α)
    (h : dictGet d k = some v') : (dictSet d k v).map Prod.fst = d.map Prod.fst := by
  induction d with
  | nil => simp [dictGet] at h
  | cons kv rest ih =>
      obtain ⟨k0, v0⟩ := kv
      by_cases hk : k0 = k
      · simp [dictSet, hk]
      · simp [dictGet, hk] at h
        simp [dictSet, hk, ih h]

/-- C1: registering a schema under an identifier that already holds a
structurally equal schema is a no-op; registering different content under an
existing identifier overwrites it in place — the registry keeps the same
identifiers, the stored schema becomes the latest one, other entries are
untouched, and no conflict error is raised (the function is total). -/
theorem C1_registry_last_writer_wins (s : SchemasMap) (id : String) (c c' : PyVal)
    (hex : dictGet s id = some c') :
    (c' = c → TornOpenComponents.schema s id c = s) ∧
    (PyVal.beq c' c = false →
      dictGet (TornOpenComponents.schema s id c) id = some c ∧
      (TornOpenComponents.schema s id c).map Prod.fst = s.map Prod.fst ∧
      ∀ k, k ≠ id → dictGet (TornOpenComponents.schema s id c) k = dictGet s k) := by
  constructor
  · intro hc
    subst hc
    simp [TornOpenComponents.schema, hex, PyVal.beq_refl]
  · intro hne
    have hreg : TornOpenComponents.schema s id c = dictSet s id c := by
      simp [TornOpenComponents.schema, hex, hne, Components.schema]
    refine ⟨?_, ?_, ?_⟩
    · rw [hreg]; exact dictGet_dictSet_self s id c
    · rw [hreg]; exact dictSet_keys_of_mem s id c c' hex
    · intro k hk
      rw [hreg]
      exact dictGet_dictSet_ne s id k c hk

/-- Witness for C1: a registry holding `Pet ↦ {"type": "object"}`; re-registering
the same schema is a no-op, registering `{"type": "string"}` under `Pet`
overwrites it while keeping the single identifier. -/
theorem C1_registry_last_writer_wins_witness :
    TornOpenComponents.schema [("Pet", PyVal.vDict [("type", PyVal.vStr "object")])] "Pet"
        (PyVal.vDict [("type", PyVal.vStr "object")]) =
      [("Pet", PyVal.vDict [("type", PyVal.vStr "object")])] ∧
    dictGet (TornOpenComponents.schema [("Pet", PyVal.vDict [("type", PyVal.vStr "object")])]
        "Pet" (PyVal.vDict [("type", PyVal.vStr "string")])) "Pet" =
      some (PyVal.vDict [("type", PyVal.vStr "string")]) ∧
    (TornOpenComponents.schema [("Pet", PyVal.vDict [("type", PyVal.vStr "object")])]
        "Pet" (PyVal.vDict [("type", PyVal.vStr "string")])).map Prod.fst = ["Pet"] :=
  ⟨(C1_registry_last_writer_wins [("Pet", PyVal.vDict [("type", PyVal.vStr "object")])] "Pet"
      (PyVal.vDict [("type", PyVal.vStr "object")]) (PyVal.vDict [("type", PyVal.vStr "object")])
      (by rfl)).1 rfl,
   ((C1_registry_last_writer_wins [("Pet", PyVal.vDict [("type", PyVal.vStr "object")])] "Pet"
      (PyVal.vDict [("type", PyVal.vStr "string")]) (PyVal.vDict [("type", PyVal.vStr "object")])
      (by rfl)).2 (by rfl)).1,
   ((C1_registry_last_writer_wins [("Pet", PyVal.vDict [("type", PyVal.vStr "object")])] "Pet"
      (PyVal.vDict [("type", PyVal.vStr "string")]) (PyVal.vDict [("type", PyVal.vStr "object")])
      (by rfl)).2 (by rfl)).2.1⟩

theorem truthy_of_mem_clear_none (kvs : List (String × PyVal)) (kv : String × PyVal)
    (h : kv ∈ _clear_none_from_dict kvs) : truthy kv.2 = true := by
  simp only [_clear_none_from_dict, List.mem_filter] at h
  exact h.2

theorem Schema_ok_shape (p : PyParameter) (s : List (String × PyVal))
    (hs : Schema p = .ok s) : ∃ raw, s = _clear_none_from_dict raw := by
  cases h1 : _get_type p.ann with
  | error e => simp [Schema, h1, Bind.bind, Except.bind] at hs
  | ok t =>
    cases h2 : _get_default_value_of_parameter p with
    | error e => simp [Schema, h1, h2, Bind.bind, Except.bind] at hs
    | ok d =>
      cases h3 : Items p.ann with
      | error e => simp [Schema, h1, h2, h3, Bind.bind, Except.bind] at hs
      | ok it =>
        simp only [Schema, h1, h2, h3, Bind.bind, Except.bind, Except.ok.injEq] at hs
        exact ⟨_, hs.symm⟩

theorem Operation_ok_shape (m : String) (u : URLSpec) (comps : SchemasMap)
    (opc : List (String × PyVal) × SchemasMap) (hop : Operation m u comps = .ok opc) :
    ∃ raw, opc.1 = _clear_none_from_dict raw := by
  cases h1 : _get_query_params m u with
  | error e => simp [Operation, h1, Bind.bind, Except.bind] at hop
  | ok params =>
    cases h2 : _get_operation_description m u with
    | error e => simp [Operation, h1, h2, Bind.bind, Except.bind] at hop
    | ok descr =>
      cases h3 : RequestBody m u with
      | error e => simp [Operation, h1, h2, h3, Bind.bind, Except.bind] at hop
      | ok rb =>
        cases h4 : Responses m u comps with
        | error e => simp [Operation, h1, h2, h3, h4, Bind.bind, Except.bind] at hop
        | ok rc =>
          simp only [Operation, h1, h2, h3, h4, Bind.bind, Except.bind,
            Except.ok.injEq] at hop
          exact ⟨_, by rw [← hop]⟩

/-- C2 (amended): the falsy-value compaction holds for every dict that passes
through `_clear_none_from_dict` — schema dicts and operation dicts contain no
key whose value is falsy (in particular none that is `None`, `{}` or `[]`).
It does NOT hold for the dicts built without compaction: a parameter dict may
carry `"required": False` and `"schema": {}` (see the counterexample), and a
success-response dict may carry `"schema": None`. -/
theorem C2_compacted_dicts_have_no_falsy_values (p : PyParameter)
    (s : List (String × PyVal)) (m : String) (u : URLSpec) (comps : SchemasMap)
    (opc : List (String × PyVal) × SchemasMap)
    (hs : Schema p = .ok s) (hop : Operation m u comps = .ok opc) :
    (∀ kv ∈ s, truthy kv.2 = true) ∧ (∀ kv ∈ opc.1, truthy kv.2 = true) := by
  constructor
  · intro kv hkv
    obtain ⟨raw, hraw⟩ := Schema_ok_shape p s hs
    exact truthy_of_mem_clear_none raw kv (hraw ▸ hkv)
  · intro kv hkv
    obtain ⟨raw, hraw⟩ := Operation_ok_shape m u comps opc hop
    exact truthy_of_mem_clear_none raw kv (hraw ▸ hkv)

/-- Counterexample to C2 as stated: a query parameter with an unrecognized
annotation and no default produces a parameter dict whose `"schema"` key holds
the empty dict `{}` — an emitted dict with a `{}`-valued key. -/
theorem C2_counterexample :
    QueryParameter ⟨"q", .otherClass "Widget", none⟩ =
      .ok [("name", .vStr "q"), ("in", .vStr "query"), ("required", .vBool true),
           ("schema", .vDict [])] := by
  simp [QueryParameter, Parameter, Schema, _get_type, Items, _get_item_type, pyArgs,
    _get_default_value_of_parameter, _clear_none_from_dict, truthy, isEnumMeta,
    is_optional, is_noneType, pyOptStr, _unpack_enum, _get_type_of_enum_value,
    Bind.bind, Except.bind, Pure.pure, Except.pure]

/-- The tornado `RequestHandler` default stub, as a method attribute. -/
def stubMethod : HandlerMethod := ⟨true, none, none, none⟩

/-- A concrete overridden `get` method used by witnesses. -/
def sampleGetMethod : HandlerMethod :=
  ⟨false, some "Fetch a widget.", some ["widgets"], some "Get widget"⟩

/-- A concrete handler used by witnesses: only `get` is overridden; it has no
path or query parameters, no JSON-body parameter, and a response model with a
docstring. -/
def sampleHandler : Handler :=
  ⟨["GET", "HEAD", "POST", "DELETE", "PATCH", "PUT", "OPTIONS"],
   [("get", sampleGetMethod), ("head", stubMethod), ("post", stubMethod),
    ("delete", stubMethod), ("patch", stubMethod), ("put", stubMethod),
    ("options", stubMethod)],
   [],
   [("get", [])],
   [("get", none)],
   [("get", some ⟨some "A sample response", [("title", .vStr "Resp")]⟩)]⟩

/-- A concrete route for `sampleHandler` with no capture groups. -/
def sampleSpec : URLSpec := ⟨"/widgets", [], 0, sampleHandler⟩

/-- The operation dict `Operation "get" sampleSpec []` evaluates to. -/
def sampleOperationDict : List (String × PyVal) :=
  [("tags", .vList [.vStr "widgets"]), ("summary", .vStr "Get widget"),
   ("description", .vStr "Fetch a widget."),
   ("responses", .vDict [("200", .vDict
      [("description", .vStr "A sample response"),
       ("content", .vDict [("application/json",
          .vDict [("schema", .vDict [("title", .vStr "Resp")])])])])])]

/-- Witness for C2 (amended), at the `Optional[int] = 5` query parameter's
schema dict and at `Operation "get" sampleSpec []`. -/
theorem C2_compacted_dicts_have_no_falsy_values_witness :
    (∀ kv ∈ [("type", PyVal.vStr "integer"), ("default", PyVal.vInt 5)], truthy kv.2 = true) ∧
    (∀ kv ∈ (sampleOperationDict, ([] : SchemasMap)).1, truthy kv.2 = true) :=
  C2_compacted_dicts_have_no_falsy_values
    ⟨"q", .union [.pyInt, .noneType], some (.vInt 5)⟩
    [("type", PyVal.vStr "integer"), ("default", PyVal.vInt 5)]
    "get" sampleSpec [] (sampleOperationDict, [])
    (by simp [Schema, _get_type, Items, _get_item_type, pyArgs,
      _get_default_value_of_parameter, _clear_none_from_dict, truthy, isEnumMeta,
      is_optional, is_noneType, pyOptStr, _unpack_enum, _get_type_of_enum_value,
      Bind.bind, Except.bind, Pure.pure, Except.pure])
    (by rfl)

theorem insortByIndex_perm (x : String × Nat) (l : List (String × Nat)) :
    (insortByIndex x l).Perm (x :: l) := by
  induction l with
  | nil => simp [insortByIndex]
  | cons y ys ih =>
      simp only [insortByIndex]
      split
      · exact List.Perm.refl _
      · exact (ih.cons y).trans (List.Perm.swap x y ys)

theorem pySortedByGroupIndex_perm (l : List (String × Nat)) :
    (pySortedByGroupIndex l).Perm l := by
  induction l with
  | nil => simp [pySortedByGroupIndex]
  | cons x xs ih => exact (insortByIndex_perm x _).trans (ih.cons x)

theorem insortByIndex_pairwise (x : String × Nat) (l : List (String × Nat))
    (h : l.Pairwise (fun u v => u.2 ≤ v.2)) :
    (insortByIndex x l).Pairwise (fun u v => u.2 ≤ v.2) := by
  induction l with
  | nil => simp [insortByIndex]
  | cons y ys ih =>
      rcases List.pairwise_cons.mp h with ⟨hy, hys⟩
      simp only [insortByIndex]
      split
      · rename_i hxy
        refine List.pairwise_cons.mpr ⟨?_, h⟩
        intro z hz
        rcases List.mem_cons.mp hz with hz | hz
        · exact hz ▸ hxy
        · exact le_trans hxy (hy z hz)
      · rename_i hxy
        have hyx : y.2 ≤ x.2 := le_of_not_le hxy
        refine List.pairwise_cons.mpr ⟨?_, ih hys⟩
        intro z hz
        have hz' := (insortByIndex_perm x ys).mem_iff.mp hz
        rcases List.mem_cons.mp hz' with hz' | hz'
        · exact hz' ▸ hyx
        · exact hy z hz'

theorem pySortedByGroupIndex_pairwise (l : List (String × Nat)) :
    (pySortedByGroupIndex l).Pairwise (fun u v => u.2 ≤ v.2) := by
  induction l with
  | nil => simp [pySortedByGroupIndex]
  | cons x xs ih => exact insortByIndex_pairwise x _ ih

/-- The sorted parameter tuple lists `{a}` before `{b}` whenever `a`'s capture
index is smaller: the tuple splits around the two placeholders in order. -/
theorem extract_params_order (u : URLSpec) (a b : String) (ia ib : Nat)
    (ha : (a, ia) ∈ u.groupindex) (hb : (b, ib) ∈ u.groupindex) (hab : ia < ib) :
    ∃ l1 l2 l3, extract_and_sort_path_path_params u =
      l1 ++ ("\x7b" ++ a ++ "\x7d") :: (l2 ++ ("\x7b" ++ b ++ "\x7d") :: l3) := by
  classical
  set s := pySortedByGroupIndex u.groupindex with hs
  have hperm := pySortedByGroupIndex_perm u.groupindex
  have hpair := pySortedByGroupIndex_pairwise u.groupindex
  have ha' : (a, ia) ∈ s := hperm.mem_iff.mpr ha
  have hb' : (b, ib) ∈ s := hperm.mem_iff.mpr hb
  obtain ⟨i, hi, hia⟩ := List.mem_iff_getElem.mp ha'
  obtain ⟨j, hj, hjb⟩ := List.mem_iff_getElem.mp hb'
  have hij : i < j := by
    rcases Nat.lt_trichotomy i j with h | h | h
    · exact h
    · exfalso
      subst h
      have heq : (a, ia) = (b, ib) := by rw [← hia, ← hjb]
      injection heq with h1 h2
      omega
    · exfalso
      have := List.pairwise_iff_getElem.mp hpair j i hj hi h
      rw [hia, hjb] at this
      simp only at this
      omega
  have hsplit1 : s = s.take i ++ (a, ia) :: s.drop (i + 1) := by
    conv_lhs => rw [← List.take_append_drop i s]
    rw [List.drop_eq_getElem_cons hi, hia]
  have hk : j - (i + 1) < (s.drop (i + 1)).length := by
    simp only [List.length_drop]
    omega
  have hkb : (s.drop (i + 1))[j - (i + 1)] = (b, ib) := by
    rw [List.getElem_drop]
    have : i + 1 + (j - (i + 1)) = j := by omega
    simp only [this]
    exact hjb
  have hsplit2 : s.drop (i + 1) =
      (s.drop (i + 1)).take (j - (i + 1)) ++ (b, ib) :: (s.drop (i + 1)).drop (j - i) := by
    conv_lhs => rw [← List.take_append_drop (j - (i + 1)) (s.drop (i + 1))]
    rw [List.drop_eq_getElem_cons hk, hkb]
    have : j - (i + 1) + 1 = j - i := by omega
    rw [this]
  refine ⟨(s.take i).map (fun param => "\x7b" ++ param.1 ++ "\x7d"),
          ((s.drop (i + 1)).take (j - (i + 1))).map (fun param => "\x7b" ++ param.1 ++ "\x7d"),
          ((s.drop (i + 1)).drop (j - i)).map (fun param => "\x7b" ++ param.1 ++ "\x7d"), ?_⟩
  unfold extract_and_sort_path_path_params
  rw [← hs]
  conv_lhs => rw [hsplit1, hsplit2]
  simp [List.map_append]

/-- `out` contains the strings `args` in order, as disjoint occurrences. -/
def containsInOrder : List Char → List String → Prop
  | _, [] => True
  | out, a :: rest => ∃ p q, out = p ++ a.toList ++ q ∧ containsInOrder q rest

theorem containsInOrder_cons (c : Char) (out : List Char) (args : List String)
    (h : containsInOrder out args) : containsInOrder (c :: out) args := by
  cases args with
  | nil => trivial
  | cons a rest =>
      obtain ⟨p, q, rfl, hq⟩ := h
      exact ⟨c :: p, q, rfl, hq⟩

theorem containsInOrder_append_left (pre out : List Char) (args : List String)
    (h : containsInOrder out args) : containsInOrder (pre ++ out) args := by
  induction pre with
  | nil => exact h
  | cons c cs ih => exact containsInOrder_cons c (cs ++ out) args ih

theorem percentFormatChars_containsInOrder_aux (n : Nat) : ∀ (cs : List Char)
    (args : List String) (out : List Char), cs.length ≤ n →
    percentFormatChars cs args = .ok out → containsInOrder out args := by
  induction n with
  | zero =>
      intro cs args out hlen h
      have hcs : cs = [] := List.length_eq_zero.mp (Nat.le_zero.mp hlen)
      subst hcs
      cases args with
      | nil =>
          simp only [percentFormatChars, Except.ok.injEq] at h
          subst h
          trivial
      | cons a as => simp [percentFormatChars] at h
  | succ n ihn =>
      intro cs args out hlen h
      rw [percentFormatChars.eq_def] at h
      split at h
      · injection h with h
        subst h
        trivial
      · exact absurd h (by simp)
      · exact absurd h (by simp)
      · rename_i rest a args'
        cases hr : percentFormatChars rest args' with
        | error e => rw [hr] at h; exact absurd h (by simp [Bind.bind, Except.bind])
        | ok r =>
            rw [hr] at h
            simp only [Bind.bind, Except.bind, Except.ok.injEq] at h
            subst h
            refine ⟨[], r, rfl, ?_⟩
            refine ihn rest args' r ?_ hr
            simp at hlen
            omega
      · exact absurd h (by simp)
      · rename_i rest
        cases hr : percentFormatChars rest args with
        | error e => rw [hr] at h; exact absurd h (by simp [Bind.bind, Except.bind])
        | ok r =>
            rw [hr] at h
            simp only [Bind.bind, Except.bind, Except.ok.injEq] at h
            subst h
            refine containsInOrder_cons '%' r args ?_
            refine ihn rest args r ?_ hr
            simp at hlen
            omega
      · exact absurd h (by simp)
      · rename_i c rest c1 c2 c3 c4 c5
        cases hr : percentFormatChars rest args with
        | error e => rw [hr] at h; exact absurd h (by simp [Bind.bind, Except.bind])
        | ok r =>
            rw [hr] at h
            simp only [Bind.bind, Except.bind, Except.ok.injEq] at h
            subst h
            refine containsInOrder_cons c r args ?_
            refine ihn rest args r ?_ hr
            simp at hlen
            omega

theorem percentFormatChars_containsInOrder (cs : List Char) (args : List String)
    (out : List Char) (h : percentFormatChars cs args = .ok out) :
    containsInOrder out args :=
  percentFormatChars_containsInOrder_aux cs.length cs args out (Nat.le_refl _) h

theorem containsInOrder_split (l rest : List String) (out : List Char)
    (h : containsInOrder out (l ++ rest)) : ∃ p q, out = p ++ q ∧ containsInOrder q rest := by
  induction l generalizing out with
  | nil => exact ⟨[], out, rfl, h⟩
  | cons x xs ih =>
      obtain ⟨p, q, rfl, hq⟩ := h
      obtain ⟨p2, q2, hq2, hrest⟩ := ih q hq
      refine ⟨p ++ x.toList ++ p2, q2, ?_, hrest⟩
      rw [hq2]
      simp [List.append_assoc]

theorem containsInOrder_two (out : List Char) (l1 : List String) (a : String)
    (l2 : List String) (b : String) (l3 : List String)
    (h : containsInOrder out (l1 ++ a :: (l2 ++ b :: l3))) :
    ∃ p q r, out = p ++ a.toList ++ q ++ b.toList ++ r := by
  obtain ⟨p0, q0, rfl, h0⟩ := containsInOrder_split l1 _ out h
  obtain ⟨pa, qa, rfl, ha⟩ := h0
  obtain ⟨p2, q2, rfl, h2⟩ := containsInOrder_split l2 _ qa ha
  obtain ⟨pb, qb, rfl, hb⟩ := h2
  exact ⟨p0 ++ pa, p2 ++ pb, qb, by simp [List.append_assoc]⟩

theorem right_strip_path_shape (sub : String) (X R : List Char)
    (hsub : sub.toList = X ++ '}' :: R) :
    ∃ r, (right_strip_path sub).toList = X ++ '}' :: r := by
  have htl : (right_strip_path sub).toList =
      (sub.toList.reverse.dropWhile (fun c => c == '/' || c == '*')).reverse := rfl
  by_cases hw : (List.dropWhile (fun c => c == '/' || c == '*') R.reverse).isEmpty
  · refine ⟨[], ?_⟩
    rw [htl, hsub]
    simp only [List.reverse_append, List.reverse_cons, List.append_assoc,
      List.singleton_append]
    rw [List.dropWhile_append]
    simp [hw, List.dropWhile_cons]
  · refine ⟨(List.dropWhile (fun c => c == '/' || c == '*') R.reverse).reverse, ?_⟩
    rw [htl, hsub]
    simp only [List.reverse_append, List.reverse_cons, List.append_assoc,
      List.singleton_append]
    rw [List.dropWhile_append]
    simp [hw, List.dropWhile_cons]

/-- C3: with no capture groups, `get_path` returns the raw path unchanged
except for stripping trailing `/` and `*`; with named capture groups it
substitutes the positional `%s` slots of the raw path with the `{name}`
placeholders sorted by capture-group index, so a group with a smaller index
appears in the emitted path before one with a larger index, regardless of
name order. -/
theorem C3_path_translation (u : URLSpec) :
    (u.groups = 0 → get_path u = .ok (right_strip_path u.matcher_path)) ∧
    (u.groups ≠ 0 → get_path u =
      (percentFormat u.matcher_path (extract_and_sort_path_path_params u)).map
        right_strip_path) ∧
    (∀ a ia b ib, (a, ia) ∈ u.groupindex → (b, ib) ∈ u.groupindex → ia < ib →
      ∀ res, u.groups ≠ 0 → get_path u = .ok res →
        ∃ p q r, res.toList = p ++ ("\x7b" ++ a ++ "\x7d").toList ++ q ++
          ("\x7b" ++ b ++ "\x7d").toList ++ r) := by
  have hpart2 : u.groups ≠ 0 → get_path u =
      (percentFormat u.matcher_path (extract_and_sort_path_path_params u)).map
        right_strip_path := by
    intro hn
    simp only [get_path, replace_path_with_openapi_placeholders, if_neg hn, Bind.bind,
      Except.bind]
    cases hpf : percentFormat u.matcher_path (extract_and_sort_path_path_params u) <;>
      simp [Except.map]
  refine ⟨?_, hpart2, ?_⟩
  · intro h0
    simp [get_path, replace_path_with_openapi_placeholders, h0, Bind.bind, Except.bind]
  · intro a ia b ib ha hb hab res hn hres
    rw [hpart2 hn] at hres
    cases hpf : percentFormat u.matcher_path (extract_and_sort_path_path_params u) with
    | error e => rw [hpf] at hres; exact absurd hres (by simp [Except.map])
    | ok sub =>
        rw [hpf] at hres
        simp only [Except.map, Except.ok.injEq] at hres
        subst hres
        obtain ⟨l1, l2, l3, hsplit⟩ := extract_params_order u a b ia ib ha hb hab
        have hchars : percentFormatChars u.matcher_path.toList
            (extract_and_sort_path_path_params u) = .ok sub.toList := by
          unfold percentFormat at hpf
          cases hc : percentFormatChars u.matcher_path.toList
              (extract_and_sort_path_path_params u) with
          | error e => rw [hc] at hpf; exact absurd hpf (by simp [Except.map])
          | ok out =>
              rw [hc] at hpf
              simp only [Except.map, Except.ok.injEq] at hpf
              rw [← hpf]
              rfl
        rw [hsplit] at hchars
        have hcio := percentFormatChars_containsInOrder _ _ _ hchars
        obtain ⟨p, q, r0, hout⟩ := containsInOrder_two _ _ _ _ _ _ hcio
        have hbtl : ("\x7b" ++ b ++ "\x7d").toList = ('\x7b' :: b.toList) ++ ['\x7d'] := by
          simp [String.toList, String.data_append]
        have hsub2 : sub.toList = (p ++ ("\x7b" ++ a ++ "\x7d").toList ++ q ++
            ('\x7b' :: b.toList)) ++ '\x7d' :: r0 := by
          rw [hout, hbtl]
          simp [List.append_assoc]
        obtain ⟨r1, hr1⟩ := right_strip_path_shape sub _ _ hsub2
        refine ⟨p, q, r1, ?_⟩
        rw [hr1, hbtl]
        simp [List.append_assoc]

/-- Witness for C3: the zero-group route `/widgets` maps to itself, and the
two-group route `/users/%s/posts/%s/` with `a` at capture index 1 and `b` at
capture index 2 (declared in the opposite order) maps to
`/users/{a}/posts/{b}` with the trailing slash stripped. -/
theorem C3_path_translation_witness :
    get_path sampleSpec = .ok (right_strip_path "/widgets") ∧
    (∃ p q r, ("/users/\x7ba\x7d/posts/\x7bb\x7d" : String).toList =
      p ++ ("\x7ba\x7d" : String).toList ++ q ++ ("\x7bb\x7d" : String).toList ++ r) :=
  ⟨(C3_path_translation sampleSpec).1 rfl,
   (C3_path_translation ⟨"/users/%s/posts/%s/", [("b", 2), ("a", 1)], 2, sampleHandler⟩).2.2
     "a" 1 "b" 2 (by simp) (by simp) (by omega)
     "/users/\x7ba\x7d/posts/\x7bb\x7d" (by decide) (by rfl)⟩

/-- C4: a query parameter annotated `Optional[int]` with declared default `5`
yields exactly
`{"name": ..., "in": "query", "required": False, "schema": {"type": "integer",
"default": 5}}`; and in general a query parameter's `required` field is `True`
iff its annotation is not Optional. -/
theorem C4_optional_int_query_parameter (name : String) :
    QueryParameter ⟨name, .union [.pyInt, .noneType], some (.vInt 5)⟩ =
      .ok [("name", .vStr name), ("in", .vStr "query"), ("required", .vBool false),
           ("schema", .vDict [("type", .vStr "integer"), ("default", .vInt 5)])] ∧
    (∀ p kvs, QueryParameter p = .ok kvs →
      dictGet kvs "required" = some (.vBool (!is_optional p.ann))) := by
  constructor
  · simp [QueryParameter, Parameter, Schema, _get_type, Items, _get_item_type, pyArgs,
      _get_default_value_of_parameter, _clear_none_from_dict, truthy, isEnumMeta,
      is_optional, is_noneType, pyOptStr, _unpack_enum, _get_type_of_enum_value,
      Bind.bind, Except.bind, Pure.pure, Except.pure]
  · intro p kvs h
    cases hs : Schema p with
    | error e => simp [QueryParameter, Parameter, hs, Bind.bind, Except.bind] at h
    | ok s =>
        simp only [QueryParameter, Parameter, hs, Bind.bind, Except.bind,
          Except.ok.injEq] at h
        subst h
        simp [dictGet, Option.getD]

/-- Witness for C4 at the parameter `limit : Optional[int] = 5`. -/
theorem C4_optional_int_query_parameter_witness :
    QueryParameter ⟨"limit", .union [.pyInt, .noneType], some (.vInt 5)⟩ =
      .ok [("name", .vStr "limit"), ("in", .vStr "query"), ("required", .vBool false),
           ("schema", .vDict [("type", .vStr "integer"), ("default", .vInt 5)])] ∧
    dictGet [("name", PyVal.vStr "limit"), ("in", PyVal.vStr "query"),
        ("required", PyVal.vBool false),
        ("schema", PyVal.vDict [("type", PyVal.vStr "integer"), ("default", PyVal.vInt 5)])]
      "required" = some (PyVal.vBool false) :=
  ⟨(C4_optional_int_query_parameter "limit").1,
   (C4_optional_int_query_parameter "limit").2
     ⟨"limit", .union [.pyInt, .noneType], some (.vInt 5)⟩ _
     (C4_optional_int_query_parameter "limit").1⟩

/-- Counterexample to C5 as stated: the bare builtin `list` annotation has
inferred outer type `"array"`, but computing its item type raises
`AttributeError` (`list` has no `__args__`) instead of yielding an absent item
type. -/
theorem C5_counterexample :
    _get_type .pyList = .ok (some "array") ∧
    Items .pyList = .error "AttributeError: object has no attribute __args__" := by
  constructor
  · simp [_get_type]
  · simp [Items, _get_type, _get_item_type, pyArgs, Bind.bind, Except.bind]

/-- C5 (amended): `items` is `None` whenever the inferred outer type is not
`"array"`; for a parameterized annotation with exactly one type argument
(e.g. `List[str]`) the item type is the inferred type of that argument; for
`Optional[List[T]]` it is the inferred type of `T`, unwrapping both layers;
for array-typed annotations that have `__args__` but fit neither case the item
type is absent; but for the bare `list`/`typing.List` annotations (inferred
outer type `"array"`, no `__args__`) the computation raises `AttributeError`
rather than omitting the item type. -/
theorem C5_array_item_schemas (t : PyType) :
    (∀ a r, _get_type a = .ok r → r ≠ some "array" → Items a = .ok .vNone) ∧
    (Items (.generic .pyList [t]) =
      (_get_type t).map (fun it => .vDict [("type", pyOptStr it)])) ∧
    (Items (.union [.generic .pyList [t], .noneType]) =
      (_get_type t).map (fun it => .vDict [("type", pyOptStr it)])) ∧
    (∀ name, Schema ⟨name, .generic .pyList [.pyStr], none⟩ =
      .ok [("type", .vStr "array"), ("items", .vDict [("type", .vStr "string")])]) ∧
    Items .pyList = .error "AttributeError: object has no attribute __args__" ∧
    Items .typingList = .error "AttributeError: object has no attribute __args__" := by
  refine ⟨?_, ?_, ?_, ?_, ?_, ?_⟩
  · intro a r h hne
    simp only [Items, h, Bind.bind, Except.bind]
    rw [if_pos hne]
  · cases ht : _get_type t with
    | error e =>
        simp [Items, _get_type, _get_item_type, pyArgs, ht, Bind.bind, Except.bind,
          Except.map]
    | ok it =>
        simp [Items, _get_type, _get_item_type, pyArgs, ht, Bind.bind, Except.bind,
          Except.map]
  · cases ht : _get_type t with
    | error e =>
        simp [Items, _get_type, _get_item_type, pyArgs, ht, Bind.bind, Except.bind,
          Except.map, is_optional, is_noneType, _get_type_of_enum_value, _unpack_enum]
    | ok it =>
        simp [Items, _get_type, _get_item_type, pyArgs, ht, Bind.bind, Except.bind,
          Except.map, is_optional, is_noneType, _get_type_of_enum_value, _unpack_enum]
  · intro name
    simp [Schema, _get_type, Items, _get_item_type, pyArgs,
      _get_default_value_of_parameter, _clear_none_from_dict, truthy, isEnumMeta,
      pyOptStr, Bind.bind, Except.bind]
  · simp [Items, _get_type, _get_item_type, pyArgs, Bind.bind, Except.bind]
  · simp [Items, _get_type, _get_item_type, pyArgs, Bind.bind, Except.bind]

/-- Witness for C5 (amended): an unrecognized scalar annotation has no items;
`List[str]` yields items `{"type": "string"}` inside a `"array"` schema. -/
theorem C5_array_item_schemas_witness :
    Items (.otherClass "Widget") = .ok .vNone ∧
    Items (.generic .pyList [.pyStr]) = .ok (.vDict [("type", .vStr "string")]) ∧
    Items (.union [.generic .pyList [.pyInt], .noneType]) =
      .ok (.vDict [("type", .vStr "integer")]) ∧
    Schema ⟨"xs", .generic .pyList [.pyStr], none⟩ =
      .ok [("type", .vStr "array"), ("items", .vDict [("type", .vStr "string")])] :=
  ⟨(C5_array_item_schemas .pyStr).1 (.otherClass "Widget") none (by simp [_get_type])
      (by simp),
   (C5_array_item_schemas .pyStr).2.1.trans (by simp [_get_type, Except.map, pyOptStr]),
   (C5_array_item_schemas .pyInt).2.2.1.trans (by simp [_get_type, Except.map, pyOptStr]),
   (C5_array_item_schemas .pyStr).2.2.2.1 "xs"⟩

/-- Counterexample to C6 as stated: an enum whose first member's value is a
list (`class E(Enum): A = ["x"]`) has inferred type `"array"`, so `Items`
calls `_get_item_type` on the enum class, which accesses its `__args__` and
raises `AttributeError` — no schema (and in particular no `enum` field) is
ever emitted for such a parameter. -/
theorem C6_counterexample :
    _get_type (.enum [("A", PyVal.vList [PyVal.vStr "x"])]) = .ok (some "array") ∧
    Schema ⟨"e", .enum [("A", PyVal.vList [PyVal.vStr "x"])], none⟩ =
      .error "AttributeError: object has no attribute __args__" := by
  have h1 : _get_type (.enum [("A", PyVal.vList [PyVal.vStr "x"])]) =
      .ok (some "array") := by
    rw [_get_type]
    simp [_get_type_of_enum_value, _unpack_enum, pyTypeOf, _get_type]
  have h2 : Items (.enum [("A", PyVal.vList [PyVal.vStr "x"])]) =
      .error "AttributeError: object has no attribute __args__" := by
    simp [Items, h1, _get_item_type, pyArgs, Bind.bind, Except.bind]
  refine ⟨h1, ?_⟩
  simp [Schema, h1, h2, _get_default_value_of_parameter, truthy, isEnumMeta,
    Bind.bind, Except.bind]

/-- C6 (amended): for a parameter annotated with an enumerated type, the
inferred schema type is the type inferred from the value of the enum's first
member (so an enum with string values yields `"string"`); whenever that
inferred type is not `"array"`, the schema's `enum` field lists the members'
underlying values — not their names — in declaration order; but when the
inferred type is `"array"` (the first member's value is a list), the `items`
computation accesses the enum class's `__args__` and raises `AttributeError`,
so no schema at all is emitted for such a parameter. -/
theorem C6_enum_schema (name n0 : String) (v0 : PyVal) (rest : List (String × PyVal))
    (r : Option String) (h : _get_type (pyTypeOf v0) = .ok r) :
    _get_type (.enum ((n0, v0) :: rest)) = .ok r ∧
    (r ≠ some "array" →
      ∃ kvs, Schema ⟨name, .enum ((n0, v0) :: rest), none⟩ = .ok kvs ∧
        dictGet kvs "enum" = some (.vList (((n0, v0) :: rest).map Prod.snd)) ∧
        (∀ t, r = some t → t ≠ "" → dictGet kvs "type" = some (.vStr t)) ∧
        (∀ s, v0 = .vStr s → dictGet kvs "type" = some (.vStr "string"))) ∧
    (r = some "array" →
      Schema ⟨name, .enum ((n0, v0) :: rest), none⟩ =
        .error "AttributeError: object has no attribute __args__") := by
  have hms : _get_type (.enum ((n0, v0) :: rest)) = .ok r := by
    rw [_get_type]
    simp only [_get_type_of_enum_value, _unpack_enum, List.map_cons, List.head?_cons,
      Option.map_some']
    exact h
  refine ⟨hms, ?_, ?_⟩
  · intro hra
    have hitems : Items (.enum ((n0, v0) :: rest)) = .ok .vNone := by
      simp only [Items, hms, Bind.bind, Except.bind]
      rw [if_pos hra]
    have hschema : Schema ⟨name, .enum ((n0, v0) :: rest), none⟩ =
        .ok (_clear_none_from_dict
          [("type", pyOptStr r),
           ("enum", .vList (((n0, v0) :: rest).map Prod.snd)),
           ("default", .vNone), ("items", .vNone)]) := by
      simp [Schema, hms, hitems, _get_default_value_of_parameter, truthy, _unpack_enum,
        Bind.bind, Except.bind]
    cases r with
    | none =>
        refine ⟨_, hschema, ?_, ?_, ?_⟩
        · simp [_clear_none_from_dict, truthy, pyOptStr, dictGet]
        · intro t ht
          exact absurd ht (by simp)
        · intro s hv
          subst hv
          simp [pyTypeOf, _get_type] at h
    | some t =>
        by_cases ht : t = ""
        · subst ht
          refine ⟨_, hschema, ?_, ?_, ?_⟩
          · simp [_clear_none_from_dict, truthy, pyOptStr, dictGet]
          · intro t' ht' hne
            rw [Option.some.injEq] at ht'
            exact absurd ht'.symm hne
          · intro s hv
            subst hv
            simp [pyTypeOf, _get_type] at h
        · refine ⟨_, hschema, ?_, ?_, ?_⟩
          · simp [_clear_none_from_dict, truthy, pyOptStr, ht, dictGet]
          · intro t' ht' hne
            rw [Option.some.injEq] at ht'
            subst ht'
            simp [_clear_none_from_dict, truthy, pyOptStr, ht, dictGet]
          · intro s hv
            subst hv
            simp only [pyTypeOf, _get_type, Except.ok.injEq, Option.some.injEq] at h
            rw [← h]
            simp [_clear_none_from_dict, truthy, pyOptStr, ht, dictGet]
  · intro hr
    subst hr
    have hitems : Items (.enum ((n0, v0) :: rest)) =
        .error "AttributeError: object has no attribute __args__" := by
      simp [Items, hms, _get_item_type, pyArgs, Bind.bind, Except.bind]
    simp [Schema, hms, hitems, _get_default_value_of_parameter, truthy, isEnumMeta,
      Bind.bind, Except.bind]

/-- Witness for C6 (amended): a two-member string-valued enum yields type
`"string"` and its full value list in declaration order; a list-valued enum
raises `AttributeError`. -/
theorem C6_enum_schema_witness :
    (∃ kvs, Schema ⟨"color", .enum [("RED", .vStr "red"), ("BLUE", .vStr "blue")],
        none⟩ = .ok kvs ∧
      dictGet kvs "enum" =
        some (.vList ([(("RED", PyVal.vStr "red")),
          (("BLUE", PyVal.vStr "blue"))].map Prod.snd)) ∧
      (∀ t, (some "string" : Option String) = some t → t ≠ "" →
        dictGet kvs "type" = some (.vStr t)) ∧
      (∀ s, PyVal.vStr "red" = .vStr s → dictGet kvs "type" = some (.vStr "string"))) ∧
    Schema ⟨"e2", .enum [("A", PyVal.vList [PyVal.vStr "x"])], none⟩ =
      .error "AttributeError: object has no attribute __args__" :=
  ⟨(C6_enum_schema "color" "RED" (.vStr "red") [("BLUE", .vStr "blue")] (some "string")
      (by simp [pyTypeOf, _get_type])).2.1 (by simp),
   (C6_enum_schema "e2" "A" (.vList [.vStr "x"]) [] (some "array")
      (by simp [pyTypeOf, _get_type])).2.2 rfl⟩

theorem dictGet_isSome_dictSet {α : Type} (d : List (String × α)) (k k' : String) (v : α) :
    (dictGet (dictSet d k v) k').isSome ↔ ((dictGet d k').isSome ∨ k' = k) := by
  by_cases h : k' = k
  · subst h
    simp [dictGet_dictSet_self]
  · rw [dictGet_dictSet_ne d k k' v h]
    simp [h]

theorem _filter_implemented_mem (handler : Handler) (l : List String)
    (ms : List String) (h : _filter_implemented handler l = .ok ms) (m : String) :
    m ∈ ms ↔ (m ∈ l ∧ ∃ hm, dictGet handler.methods m = some hm ∧
      hm.is_unimplemented = false) := by
  induction l generalizing ms with
  | nil =>
      simp only [_filter_implemented, Except.ok.injEq] at h
      subst h
      simp
  | cons m0 rest ih =>
      cases him : dictGet handler.methods m0 with
      | none =>
          simp [_filter_implemented, _is_implemented, him, Bind.bind, Except.bind] at h
      | some hm0 =>
          cases ht : _filter_implemented handler rest with
          | error e =>
              simp [_filter_implemented, _is_implemented, him, ht, Bind.bind,
                Except.bind] at h
          | ok tail =>
              by_cases hu : hm0.is_unimplemented = true
              · simp only [_filter_implemented, _is_implemented, him, ht, hu,
                  Bind.bind, Except.bind, Bool.not_true, Bool.false_eq_true, if_false,
                  Except.ok.injEq] at h
                subst h
                rw [ih tail ht]
                constructor
                · rintro ⟨hmem, hP⟩
                  exact ⟨List.mem_cons_of_mem m0 hmem, hP⟩
                · rintro ⟨hmem, hP⟩
                  rcases List.mem_cons.mp hmem with rfl | hmem'
                  · obtain ⟨hm, hget, himpl⟩ := hP
                    rw [him] at hget
                    injection hget with hget
                    subst hget
                    rw [hu] at himpl
                    exact absurd himpl (by simp)
                  · exact ⟨hmem', hP⟩
              · have hu' : hm0.is_unimplemented = false := Bool.eq_false_iff.mpr hu
                simp only [_filter_implemented, _is_implemented, him, ht, hu',
                  Bind.bind, Except.bind, Bool.not_false, if_true, Except.ok.injEq] at h
                subst h
                constructor
                · intro hmem
                  rcases List.mem_cons.mp hmem with rfl | hmem'
                  · exact ⟨List.mem_cons_self m rest, hm0, him, hu'⟩
                  · obtain ⟨hrest, hP⟩ := (ih tail ht).mp hmem'
                    exact ⟨List.mem_cons_of_mem m0 hrest, hP⟩
                · rintro ⟨hmem, hP⟩
                  rcases List.mem_cons.mp hmem with rfl | hmem'
                  · exact List.mem_cons_self m tail
                  · exact List.mem_cons_of_mem m0 ((ih tail ht).mpr ⟨hmem', hP⟩)

theorem _operations_loop_keys (u : URLSpec) (ms : List String)
    (acc : List (String × PyVal)) (comps : SchemasMap)
    (ops : List (String × PyVal)) (comps' : SchemasMap)
    (h : _operations_loop u ms acc comps = .ok (ops, comps')) (m : String) :
    (dictGet ops m).isSome ↔ ((dictGet acc m).isSome ∨ m ∈ ms) := by
  induction ms generalizing acc comps with
  | nil =>
      simp only [_operations_loop, Except.ok.injEq, Prod.mk.injEq] at h
      obtain ⟨h1, h2⟩ := h
      subst h1
      simp
  | cons m0 rest ih =>
      cases hop : Operation m0 u comps with
      | error e => simp [_operations_loop, hop, Bind.bind, Except.bind] at h
      | ok oc =>
          obtain ⟨op, comps2⟩ := oc
          simp only [_operations_loop, hop, Bind.bind, Except.bind] at h
          rw [ih (dictSet acc m0 (.vDict op)) comps2 h]
          rw [dictGet_isSome_dictSet]
          rw [List.mem_cons]
          tauto

/-- C7: the Operations mapping built for a route has an entry for exactly the
HTTP verbs (lowercased `SUPPORTED_METHODS`) whose handler method attribute is
present and is not the framework's default not-implemented stub. -/
theorem C7_operations_exactly_implemented_verbs (u : URLSpec) (comps : SchemasMap)
    (ops : List (String × PyVal)) (comps' : SchemasMap)
    (h : Operations u comps = .ok (ops, comps')) (m : String) :
    (dictGet ops m).isSome ↔
      (m ∈ u.handler_class.SUPPORTED_METHODS.map pyLower ∧
       ∃ hm, dictGet u.handler_class.methods m = some hm ∧
         hm.is_unimplemented = false) := by
  cases hms : _get_implemented_http_methods u with
  | error e => simp [Operations, hms, Bind.bind, Except.bind] at h
  | ok ms =>
      simp only [Operations, hms, Bind.bind, Except.bind] at h
      rw [_operations_loop_keys u ms [] comps ops comps' h m]
      simp only [dictGet, Option.isSome_none, Bool.false_eq_true, false_or]
      exact _filter_implemented_mem u.handler_class
        (u.handler_class.SUPPORTED_METHODS.map pyLower) ms hms m

/-- Witness for C7: `sampleHandler` implements only `get`; the built mapping
has a `get` entry and no `post` entry. -/
theorem C7_operations_exactly_implemented_verbs_witness :
    ((dictGet [("get", PyVal.vDict sampleOperationDict)] "get").isSome ↔
      ("get" ∈ sampleHandler.SUPPORTED_METHODS.map pyLower ∧
       ∃ hm, dictGet sampleHandler.methods "get" = some hm ∧
         hm.is_unimplemented = false)) ∧
    ((dictGet [("get", PyVal.vDict sampleOperationDict)] "post").isSome ↔
      ("post" ∈ sampleHandler.SUPPORTED_METHODS.map pyLower ∧
       ∃ hm, dictGet sampleHandler.methods "post" = some hm ∧
         hm.is_unimplemented = false)) :=
  ⟨C7_operations_exactly_implemented_verbs sampleSpec []
      [("get", PyVal.vDict sampleOperationDict)] [] (by rfl) "get",
   C7_operations_exactly_implemented_verbs sampleSpec []
      [("get", PyVal.vDict sampleOperationDict)] [] (by rfl) "post"⟩

/-- C8 (amended): the responses mapping always has exactly the single key
`"200"`; its description is the declared response model's docstring with
leading/trailing whitespace stripped when the model is declared and its
docstring is non-empty; otherwise (no model, no docstring, or an empty
docstring, which is falsy in Python) it is the stripped boilerplate
template. -/
theorem C8_responses_description (m : String) (u : URLSpec) (comps : SchemasMap)
    (rm : Option ResponseModel) (sch : PyVal) (comps2 : SchemasMap)
    (hrm : dictGetE u.handler_class.response_models m = .ok rm)
    (hsch : SuccessResponseModelSchema rm comps = .ok (sch, comps2)) :
    Responses m u comps = .ok ([("200", .vDict
      [("description", .vStr (get_success_response_description rm)),
       ("content", .vDict [("application/json", .vDict [("schema", sch)])])])],
      comps2) ∧
    (∀ d, rm.bind ResponseModel.doc = some d → d ≠ "" →
      get_success_response_description rm = pyStrip d) ∧
    (rm.bind ResponseModel.doc = none →
      get_success_response_description rm = pyStrip TEMPLATE_RESPONSE_DESCRIPTION) ∧
    (rm.bind ResponseModel.doc = some "" →
      get_success_response_description rm = pyStrip TEMPLATE_RESPONSE_DESCRIPTION) := by
  refine ⟨?_, ?_, ?_, ?_⟩
  · simp [Responses, SuccessResponse, hrm, hsch, Bind.bind, Except.bind]
  · intro d hd hne
    cases rm with
    | none => simp at hd
    | some rmv =>
        cases hdoc : rmv.doc with
        | none => simp [hdoc] at hd
        | some d0 =>
            simp only [Option.some_bind, hdoc, Option.some.injEq] at hd
            subst hd
            simp [get_success_response_description, hdoc, hne]
  · intro hd
    cases rm with
    | none => simp [get_success_response_description]
    | some rmv =>
        cases hdoc : rmv.doc with
        | none => simp [get_success_response_description, hdoc]
        | some d0 => simp [Option.some_bind, hdoc] at hd
  · intro hd
    cases rm with
    | none => simp at hd
    | some rmv =>
        cases hdoc : rmv.doc with
        | none => simp [Option.some_bind, hdoc] at hd
        | some d0 =>
            simp only [Option.some_bind, hdoc, Option.some.injEq] at hd
            subst hd
            simp [get_success_response_description, hdoc]

/-- Witness for C8 (amended) at `sampleHandler`'s `get` response model, whose
docstring is the non-empty string `"A sample response"`. -/
theorem C8_responses_description_witness :
    Responses "get" sampleSpec [] = .ok ([("200", .vDict
      [("description", .vStr (get_success_response_description
          (some ⟨some "A sample response", [("title", .vStr "Resp")]⟩))),
       ("content", .vDict [("application/json",
          .vDict [("schema", .vDict [("title", .vStr "Resp")])])])])], []) ∧
    get_success_response_description
      (some ⟨some "A sample response", [("title", .vStr "Resp")]⟩) =
        pyStrip "A sample response" :=
  have T := C8_responses_description "get" sampleSpec []
    (some ⟨some "A sample response", [("title", .vStr "Resp")]⟩)
    (.vDict [("title", .vStr "Resp")]) [] (by rfl) (by rfl)
  ⟨T.1, T.2.1 "A sample response" rfl (by decide)⟩

set_option maxRecDepth 100000 in
/-- Counterexample to C8 as stated: a response model whose docstring is the
(present) empty string yields the boilerplate description, not the stripped
docstring `""`. -/
theorem C8_counterexample :
    get_success_response_description (some ⟨some "", [("title", PyVal.vStr "R")]⟩) =
      pyStrip TEMPLATE_RESPONSE_DESCRIPTION ∧
    pyStrip TEMPLATE_RESPONSE_DESCRIPTION ≠ pyStrip "" := by
  constructor
  · rfl
  · decide

/-- The precondition of C9 on an annotation: not in the primitive
`types_mapping`, not Optional, not an enumerated type, and not a generic list
type. -/
def unrecognized (a : PyType) : Bool :=
  !in_types_mapping a && !is_optional a && !isEnumMeta a && !is_list a

/-- Counterexample to C9 as stated: a non-class annotation without `__args__`
(e.g. a string forward-reference, modelled by `special`) is unrecognized, yet
`_get_type` raises `AttributeError` on it instead of returning no type. -/
theorem C9_counterexample :
    unrecognized (.special "ForwardRef") = true ∧
    _get_type (.special "ForwardRef") =
      .error "AttributeError: object has no attribute __args__" := by
  constructor
  · rfl
  · simp [_get_type]

/-- C9 (amended): `_get_type` returns no type and does not raise on every
unrecognized annotation that is a class or a parameterized alias (an object
with `__args__`); but on an unrecognized non-class annotation without
`__args__` (the `special` case, e.g. a string forward-reference) it raises
`AttributeError`, so spec generation does abort there. -/
theorem C9_unrecognized_annotations (a : PyType) (h : unrecognized a = true) :
    ((∀ n, a ≠ .special n) → _get_type a = .ok none) ∧
    (∀ n, a = .special n →
      _get_type a = .error "AttributeError: object has no attribute __args__") := by
  constructor
  · intro hns
    cases a with
    | pyStr => simp [unrecognized, in_types_mapping] at h
    | pyInt => simp [unrecognized, in_types_mapping] at h
    | pyFloat => simp [unrecognized, in_types_mapping] at h
    | pyList => simp [unrecognized, in_types_mapping] at h
    | typingList => simp [unrecognized, in_types_mapping] at h
    | enum ms => simp [unrecognized, isEnumMeta] at h
    | special n => exact absurd rfl (hns n)
    | union args =>
        simp only [unrecognized, Bool.and_eq_true, Bool.not_eq_true'] at h
        obtain ⟨⟨⟨h1, h2⟩, h3⟩, h4⟩ := h
        simp only [is_optional] at h2
        rw [_get_type.eq_def]
        simp [h2]
    | generic origin args =>
        simp only [unrecognized, Bool.and_eq_true, Bool.not_eq_true'] at h
        obtain ⟨⟨⟨h1, h2⟩, h3⟩, h4⟩ := h
        cases origin <;> simp_all [is_list, _get_type]
    | pyBool => simp [_get_type]
    | pyDict => simp [_get_type]
    | noneType => simp [_get_type]
    | modelClass nm r => simp [_get_type]
    | otherClass nm => simp [_get_type]
  · intro n hn
    subst hn
    simp [_get_type]

/-- Witness for C9 (amended): an unrecognized plain class degrades to no type;
an unrecognized non-class without `__args__` raises. -/
theorem C9_unrecognized_annotations_witness :
    _get_type (.otherClass "Widget") = .ok none ∧
    _get_type (.special "ForwardRef") =
      .error "AttributeError: object has no attribute __args__" :=
  ⟨(C9_unrecognized_annotations (.otherClass "Widget") (by rfl)).1
      (fun n => by simp),
   (C9_unrecognized_annotations (.special "ForwardRef") (by rfl)).2
      "ForwardRef" rfl⟩

/-- C10: every parameter dict (path and query alike) has exactly the four keys
`name`, `in`, `required`, `schema`, in that order; the falsy-value compaction
is never applied to it: `required` is present even when `False`, and `schema`
is present even when the computed schema is the empty dict. -/
theorem C10_parameter_dict_shape (p : PyParameter) (pt : String) (req : Option Bool)
    (kvs : List (String × PyVal)) (h : Parameter p pt req = .ok kvs) :
    kvs.map Prod.fst = ["name", "in", "required", "schema"] ∧
    dictGet kvs "required" = some (.vBool (req.getD (!is_optional p.ann))) ∧
    ∃ s, Schema p = .ok s ∧ dictGet kvs "schema" = some (.vDict s) := by
  cases hs : Schema p with
  | error e => simp [Parameter, hs, Bind.bind, Except.bind] at h
  | ok s =>
      simp only [Parameter, hs, Bind.bind, Except.bind, Except.ok.injEq] at h
      subst h
      exact ⟨by simp, by simp [dictGet], s, rfl, by simp [dictGet]⟩

/-- Witness for C10 at an Optional query parameter with an unrecognized inner
annotation: `required` is explicitly `False` and `schema` is the (present)
empty dict. -/
theorem C10_parameter_dict_shape_witness :
    ([("name", PyVal.vStr "q"), ("in", PyVal.vStr "query"),
      ("required", PyVal.vBool false), ("schema", PyVal.vDict [])].map Prod.fst =
        ["name", "in", "required", "schema"]) ∧
    dictGet [("name", PyVal.vStr "q"), ("in", PyVal.vStr "query"),
      ("required", PyVal.vBool false), ("schema", PyVal.vDict [])] "required" =
        some (PyVal.vBool false) ∧
    ∃ s, Schema ⟨"q", .union [.otherClass "Widget", .noneType], none⟩ = .ok s ∧
      dictGet [("name", PyVal.vStr "q"), ("in", PyVal.vStr "query"),
        ("required", PyVal.vBool false), ("schema", PyVal.vDict [])] "schema" =
          some (PyVal.vDict s) :=
  C10_parameter_dict_shape ⟨"q", .union [.otherClass "Widget", .noneType], none⟩
    "query" none
    [("name", PyVal.vStr "q"), ("in", PyVal.vStr "query"),
     ("required", PyVal.vBool false), ("schema", PyVal.vDict [])]
    (by simp [Parameter, Schema, _get_type, Items, _get_item_type, pyArgs,
      _get_default_value_of_parameter, _clear_none_from_dict, truthy, isEnumMeta,
      is_optional, is_noneType, pyOptStr, _unpack_enum, _get_type_of_enum_value,
      Bind.bind, Except.bind, Pure.pure, Except.pure])
